import Mathlib

/-!
Verification of the spending-tracker module
(`src/app/modules/spending_tracker.py`).

The module wires three Dash callbacks:

* `toggle_modal` — opens the "add category" modal when the dropdown
  selection contains the sentinel value `ADD_NEW`;
* `update_category_dropdown` — validates a new category name, inserts it
  through the category repository and rebuilds the dropdown options;
* `update_output` — validates the submitted spending amount/category and
  inserts one row into the `spending` table over a sqlite connection.

The embedding below translates those handlers directly from the Python
source.  Dash's `no_update` sentinel is modelled by `Upd.noUpdate`,
`dbc.Alert` by the `Alert` structure, and storage by explicit state
passing (a list of category names, a list of spending rows).  Storage
failures are modelled by `Except String`.
-/

set_option autoImplicit false

namespace SpendingTracker

/-- Dash return values: either the `dash.no_update` sentinel or a real value. -/
inductive Upd (α : Type) : Type where
  | noUpdate : Upd α
  | update : α → Upd α
deriving DecidableEq, Repr

/-- A `dbc.Alert`: message text, bootstrap color, and the optional
`duration` (milliseconds until auto-dismiss). -/
structure Alert where
  message : String
  color : String
  duration : Option Nat
deriving DecidableEq, Repr

/-- One `{label, value}` entry of the category dropdown's options list. -/
structure DropdownOption where
  label : String
  value : String
deriving DecidableEq, Repr

/-- Bool-valued infix test on `List Char`: does `needle` occur as a
contiguous sublist of `hay`?  Used to embed Python's `in` on strings. -/
def listContainsSub (needle : List Char) : List Char → Bool
  | [] => needle.isEmpty
  | c :: rest => needle.isPrefixOf (c :: rest) || listContainsSub needle rest

/-- Embeds Python's `needle in hay` substring test. -/
def strContainsSub (hay needle : String) : Bool :=
  listContainsSub needle.toList hay.toList

/-- ASCII under-approximation of Python's `str.isalnum`: non-empty and
every character an ASCII letter or digit.  The built-in is
Unicode-aware — `"Café".isalnum()` is `True` in Python while
`pyIsAlnum "Café" = false` here — so `pyIsAlnum s = true` soundly
implies the built-in accepts `s`, but `pyIsAlnum s = false` does not
imply the built-in rejects `s`.  Statements that need the rejection
direction quantify over the built-in as an oracle instead; see
`update_category_dropdownU`. -/
def pyIsAlnum (s : String) : Bool :=
  !s.isEmpty && s.toList.all Char.isAlphanum

/-- `toggle_modal(selected_value, is_open)` from the source:

```
if selected_value and 'ADD_NEW' in selected_value:
    return True
return is_open
```

`selected_value` is `None` or a string; `None` and `""` are falsy, and
`'ADD_NEW' in selected_value` is a substring test. -/
def toggle_modal (selected_value : Option String) (is_open : Bool) : Bool :=
  match selected_value with
  | none => is_open
  | some v => if !v.isEmpty && strContainsSub v "ADD_NEW" then true else is_open

/-- Modelled from the spec: the category repository
(`modules.database.get_categories` / `add_category_to_db`) is not under
`src/`; only its caller is.  Per §6 it exposes `list_categories` and
`create_category`, per §2 creation appends a row to the categories
table, and per §3/§9 no uniqueness is enforced at the storage layer and
failures are possible.  A repository is therefore a pair of fallible
operations on the stored list of category names. -/
structure CatRepo where
  addCategory : String → List String → Except String (List String)
  listCategories : List String → Except String (List String)

/-- Modelled from the spec: the repository behaviour when storage does not
fail — `create_category` appends the name (no dedup, §9) and
`list_categories` returns the stored names. -/
def defaultRepo : CatRepo where
  addCategory := fun name cats => .ok (cats ++ [name])
  listCategories := fun cats => .ok cats

/-- Rebuilds the dropdown options from a category list, exactly as both
`layout` and `update_category_dropdown` do:
`[{'label': cat, 'value': cat} for cat in cats] + [{'label': 'Add new', 'value': 'ADD_NEW'}]`. -/
def mkOptions (cats : List String) : List DropdownOption :=
  cats.map (fun c => ⟨c, c⟩) ++ [⟨"Add new", "ADD_NEW"⟩]

/-- `update_category_dropdown(n_clicks, new_category)` from the source,
with the storage state passed explicitly and repository failures
propagated through `Except` (the handler has no try/except):

```
if n_clicks is None or not new_category:
    return dash.no_update, '', None
if not new_category.isalnum():
    return dash.no_update, '', dbc.Alert('Invalid category name.', color='warning')
add_category_to_db(category_name=new_category, db_path=db_path)
updated_categories = get_categories(db_path=db_path)
updated_options = [...] + [{'label': 'Add new', 'value': 'ADD_NEW'}]
return updated_options, '', dbc.Alert(f'Category "{new_category}" added successfully!', color='success')
```

Returns the triple (options output, new-category field value, alert) and
the resulting storage state. -/
def update_category_dropdown (repo : CatRepo) (n_clicks : Option Int)
    (new_category : String) (cats : List String) :
    Except String ((Upd (List DropdownOption) × String × Option Alert) × List String) :=
  if n_clicks.isNone || new_category.isEmpty then
    .ok ((Upd.noUpdate, "", none), cats)
  else if !pyIsAlnum new_category then
    .ok ((Upd.noUpdate, "", some ⟨"Invalid category name.", "warning", none⟩), cats)
  else
    match repo.addCategory new_category cats with
    | .error e => .error e
    | .ok cats' =>
      match repo.listCategories cats' with
      | .error e => .error e
      | .ok updated_categories =>
        .ok ((Upd.update (mkOptions updated_categories), "",
              some ⟨"Category \"" ++ new_category ++ "\" added successfully!",
                    "success", none⟩), cats')

/-- `update_category_dropdown` with the Python built-in `str.isalnum`
abstracted into a parameter `isalnum : String → Bool` (the same move
`SqliteWorld` makes for `sqlite3`): the body is the same translation of
the source, with `not new_category.isalnum()` reading the oracle.
Python's real `isalnum` is one particular such function, so a property
proved for every oracle holds of the program; `update_category_dropdown`
is exactly this definition at `isalnum := pyIsAlnum`
(see `update_category_dropdownU_pyIsAlnum`). -/
def update_category_dropdownU (isalnum : String → Bool) (repo : CatRepo)
    (n_clicks : Option Int) (new_category : String) (cats : List String) :
    Except String ((Upd (List DropdownOption) × String × Option Alert) × List String) :=
  if n_clicks.isNone || new_category.isEmpty then
    .ok ((Upd.noUpdate, "", none), cats)
  else if !isalnum new_category then
    .ok ((Upd.noUpdate, "", some ⟨"Invalid category name.", "warning", none⟩), cats)
  else
    match repo.addCategory new_category cats with
    | .error e => .error e
    | .ok cats' =>
      match repo.listCategories cats' with
      | .error e => .error e
      | .ok updated_categories =>
        .ok ((Upd.update (mkOptions updated_categories), "",
              some ⟨"Category \"" ++ new_category ++ "\" added successfully!",
                    "success", none⟩), cats')

instance instDecidableEqExcept {ε α : Type} [DecidableEq ε] [DecidableEq α] :
    DecidableEq (Except ε α) := fun x y =>
  match x, y with
  | .error e, .error f =>
    if h : e = f then isTrue (by rw [h]) else isFalse (fun hc => h (by cases hc; rfl))
  | .error _, .ok _ => isFalse (fun hc => Except.noConfusion hc)
  | .ok _, .error _ => isFalse (fun hc => Except.noConfusion hc)
  | .ok a, .ok b =>
    if h : a = b then isTrue (by rw [h]) else isFalse (fun hc => h (by cases hc; rfl))

/-- Which sqlite operations inside `update_output`'s try block fail, and
with what `sqlite3.Error` message: `sqlite3.connect`, `c.execute(INSERT ...)`,
`conn.commit()`. -/
structure SqliteWorld where
  connectErr : Option String
  executeErr : Option String
  commitErr : Option String
deriving DecidableEq, Repr

/-- Everything observable about one run of `update_output`: the value the
handler returns (or, in `Except.error`, the uncaught exception it
raises), the resulting rows of the `spending` table, and whether a
connection was opened and then closed. -/
structure SubmitOutcome (A : Type) where
  result : Except String (Upd Alert)
  rows : List (A × String)
  connClosed : Bool
deriving DecidableEq, Repr

/-- `update_output(n_clicks, amount, category)` from the source.  `A` is
the runtime type of the amount (`int` or `float` in the source).

```
if n_clicks is None:
    return dash.no_update
if n_clicks > 0:
    if amount is None or category is None:
        return dbc.Alert('Please enter a valid amount and select a category', color='danger', duration=3000)
    else:
        try:
            conn = sqlite3.connect(db_path)
            c = conn.cursor()
            c.execute('INSERT INTO spending (amount, category) VALUES (?, ?)', (amount, category))
            conn.commit()
        except sqlite3.Error as e:
            return dbc.Alert(f'Database error: {e}', color='danger', duration=3000)
        finally:
            conn.close()
        return dbc.Alert(f'Amount: {amount}, Category: {category} added successfully!', color='success', duration=3000)
return dbc.Alert('Enter amount and select a category', color='warning', duration=3000)
```

If `sqlite3.connect` raises, the local `conn` is never bound; the
`except` clause computes the danger alert as the pending return value,
but the `finally` clause then evaluates `conn.close()` on the unbound
local, raising `UnboundLocalError`, which discards the pending return
and propagates out of the handler.  That branch is therefore embedded as
`Except.error "UnboundLocalError"` with no connection closed.  A failed
`execute` or `commit` leaves the transaction uncommitted, so the stored
rows are unchanged there. -/
def update_output {A : Type} [ToString A] (w : SqliteWorld) (rows : List (A × String))
    (n_clicks : Option Int) (amount : Option A) (category : Option String) :
    SubmitOutcome A :=
  match n_clicks with
  | none => ⟨.ok Upd.noUpdate, rows, false⟩
  | some k =>
    if k > 0 then
      match amount, category with
      | some a, some c =>
        match w.connectErr with
        | some _ => ⟨.error "UnboundLocalError", rows, false⟩
        | none =>
          match w.executeErr with
          | some e =>
            ⟨.ok (Upd.update ⟨"Database error: " ++ e, "danger", some 3000⟩), rows, true⟩
          | none =>
            match w.commitErr with
            | some e =>
              ⟨.ok (Upd.update ⟨"Database error: " ++ e, "danger", some 3000⟩), rows, true⟩
            | none =>
              ⟨.ok (Upd.update ⟨"Amount: " ++ toString a ++ ", Category: " ++ c ++
                      " added successfully!", "success", some 3000⟩),
               rows ++ [(a, c)], true⟩
      | _, _ =>
        ⟨.ok (Upd.update ⟨"Please enter a valid amount and select a category",
                "danger", some 3000⟩), rows, false⟩
    else
      ⟨.ok (Upd.update ⟨"Enter amount and select a category", "warning", some 3000⟩),
       rows, false⟩

/-- The sqlite world in which no storage operation fails. -/
def okWorld : SqliteWorld := ⟨none, none, none⟩

end SpendingTracker

namespace SpendingTracker

/-- A string different from the empty string has `isEmpty = false`. -/
theorem isEmpty_false_of_ne {s : String} (h : s ≠ "") : s.isEmpty = false := by
  cases hemp : s.isEmpty
  · rfl
  · exact absurd ((String.isEmpty_iff s).mp hemp) h

/-- `update_category_dropdown` is `update_category_dropdownU` applied at
the concrete ASCII test. -/
theorem update_category_dropdownU_pyIsAlnum (repo : CatRepo) (n_clicks : Option Int)
    (new_category : String) (cats : List String) :
    update_category_dropdownU pyIsAlnum repo n_clicks new_category cats =
      update_category_dropdown repo n_clicks new_category cats := rfl

/-- A non-empty alphanumeric string is in particular non-empty. -/
theorem pyIsAlnum_ne_empty {s : String} (h : pyIsAlnum s = true) : s.isEmpty = false := by
  rw [pyIsAlnum, Bool.and_eq_true] at h
  cases hemp : s.isEmpty
  · rfl
  · rw [hemp] at h
    exact absurd h.1 (by decide)

/-- Claim C1: with a positive trigger count, both amount and category
present and no storage failure, `update_output` appends exactly the one
row `(amount, category)` to the spending table, closes the connection,
and returns a success alert echoing the amount and the category with a
3000 ms auto-dismiss. -/
theorem update_output_success {A : Type} [ToString A] (rows : List (A × String))
    (k : Int) (a : A) (c : String) (hk : 0 < k) :
    update_output okWorld rows (some k) (some a) (some c) =
      ⟨.ok (Upd.update ⟨"Amount: " ++ toString a ++ ", Category: " ++ c ++
          " added successfully!", "success", some 3000⟩),
       rows ++ [(a, c)], true⟩ := by
  simp only [update_output]
  rw [if_pos hk]
  rfl

/-- Witness for C1: the spec's own example, amount `42.5` and the
pre-existing category `Food`, with click count `1` on an empty table. -/
theorem update_output_success_witness :
    (0 : Int) < 1 ∧
    update_output okWorld ([] : List (String × String)) (some 1) (some "42.5") (some "Food") =
      ⟨.ok (Upd.update ⟨"Amount: " ++ toString "42.5" ++ ", Category: " ++ "Food" ++
          " added successfully!", "success", some 3000⟩),
       [] ++ [("42.5", "Food")], true⟩ :=
  ⟨by decide, update_output_success [] 1 "42.5" "Food" (by decide)⟩

/-- Claim C6: with a positive trigger count and a missing amount or
missing category, `update_output` returns the danger alert
`Please enter a valid amount and select a category` with a 3000 ms
auto-dismiss, and the spending table is untouched. -/
theorem update_output_missing_input {A : Type} [ToString A] (w : SqliteWorld)
    (rows : List (A × String)) (k : Int) (amount : Option A) (category : Option String)
    (hk : 0 < k) (hmiss : amount = none ∨ category = none) :
    update_output w rows (some k) amount category =
      ⟨.ok (Upd.update ⟨"Please enter a valid amount and select a category",
          "danger", some 3000⟩), rows, false⟩ := by
  simp only [update_output]
  rw [if_pos hk]
  rcases hmiss with h | h
  · subst h
    rfl
  · subst h
    cases amount <;> rfl

/-- Witness for C6: click count `1`, amount `None`, category `Food`. -/
theorem update_output_missing_input_witness :
    ((0 : Int) < 1 ∧ ((none : Option String) = none ∨ (some "Food" : Option String) = none)) ∧
    update_output okWorld ([] : List (String × String)) (some 1) none (some "Food") =
      ⟨.ok (Upd.update ⟨"Please enter a valid amount and select a category",
          "danger", some 3000⟩), [], false⟩ :=
  ⟨⟨by decide, Or.inl rfl⟩,
   update_output_missing_input okWorld [] 1 none (some "Food") (by decide) (Or.inl rfl)⟩

/-- Claim C7: `update_output` returns `no_update` when the trigger count
is `None`, and the warning alert `Enter amount and select a category`
(with no storage mutation) when the trigger count is zero or less. -/
theorem update_output_no_click {A : Type} [ToString A] (w : SqliteWorld)
    (rows : List (A × String)) (amount : Option A) (category : Option String)
    (k : Int) (hk : k ≤ 0) :
    update_output w rows none amount category = ⟨.ok Upd.noUpdate, rows, false⟩ ∧
    update_output w rows (some k) amount category =
      ⟨.ok (Upd.update ⟨"Enter amount and select a category", "warning", some 3000⟩),
       rows, false⟩ := by
  constructor
  · rfl
  · simp only [update_output]
    rw [if_neg (by omega : ¬ k > 0)]

/-- Witness for C7: click count `0`, amount `42.5`, category `Food`. -/
theorem update_output_no_click_witness :
    (0 : Int) ≤ 0 ∧
    (update_output okWorld ([] : List (String × String)) none (some "42.5") (some "Food") =
      ⟨.ok Upd.noUpdate, [], false⟩ ∧
    update_output okWorld ([] : List (String × String)) (some 0) (some "42.5") (some "Food") =
      ⟨.ok (Upd.update ⟨"Enter amount and select a category", "warning", some 3000⟩),
       [], false⟩) :=
  ⟨by decide, update_output_no_click okWorld [] (some "42.5") (some "Food") 0 (by decide)⟩

/-- Claim C3: with the trigger present and a non-empty name the
`isalnum` built-in rejects, the handler returns the warning alert
`Invalid category name.`, leaves the options at `no_update`, clears the
text field, and does not touch storage.  Quantified over the `isalnum`
oracle (Python's Unicode-aware built-in is one instance) and over the
repository, since no repository operation is invoked on this branch:
instantiating the oracle at the real `str.isalnum` gives the claim for
every non-empty string that is not strictly alphanumeric, ASCII or not
(a string the real built-in accepts, such as `"Café"`, does not satisfy
the hypothesis and is not covered by the claim). -/
theorem update_category_dropdown_invalid_name (isalnum : String → Bool)
    (repo : CatRepo) (k : Int) (t : String) (cats : List String)
    (hne : t ≠ "") (hinv : isalnum t = false) :
    update_category_dropdownU isalnum repo (some k) t cats =
      .ok ((Upd.noUpdate, "", some ⟨"Invalid category name.", "warning", none⟩), cats) := by
  unfold update_category_dropdownU
  rw [if_neg (by simp [isEmpty_false_of_ne hne]), if_pos (by simp [hinv])]

/-- Witness for C3: the spec's example `"a b"` with click count `1`
(`"a b"` contains a space, so every reading of `isalnum` rejects it;
the concrete oracle instance is the ASCII test, which agrees with the
built-in on this ASCII string). -/
theorem update_category_dropdown_invalid_name_witness :
    ("a b" ≠ "" ∧ pyIsAlnum "a b" = false) ∧
    update_category_dropdownU pyIsAlnum defaultRepo (some 1) "a b" ["Food"] =
      .ok ((Upd.noUpdate, "", some ⟨"Invalid category name.", "warning", none⟩), ["Food"]) :=
  ⟨⟨by decide, by decide⟩,
   update_category_dropdown_invalid_name pyIsAlnum defaultRepo 1 "a b" ["Food"]
     (by decide) (by decide)⟩

/-- Counterexample to claim C4 as stated: a trigger count of zero does
not short-circuit — only `n_clicks is None` does.  With click count `0`
and text `Food` the handler inserts the category and returns a success
alert, not `no_update` with no alert. -/
theorem update_category_dropdown_zero_clicks_counterexample :
    update_category_dropdown defaultRepo (some 0) "Food" [] =
      .ok ((Upd.update [⟨"Food", "Food"⟩, ⟨"Add new", "ADD_NEW"⟩], "",
            some ⟨"Category \"Food\" added successfully!", "success", none⟩), ["Food"]) := rfl

/-- Claim C4 (amended): when the trigger count is `None` or the text is
empty, `update_category_dropdown` performs no storage mutation and
returns `no_update` for the options, an empty text field, and no alert. -/
theorem update_category_dropdown_short_circuit (repo : CatRepo) (n_clicks : Option Int)
    (t : String) (cats : List String) (h : n_clicks = none ∨ t = "") :
    update_category_dropdown repo n_clicks t cats =
      .ok ((Upd.noUpdate, "", none), cats) := by
  unfold update_category_dropdown
  rcases h with h | h
  · subst h
    rfl
  · subst h
    rw [if_pos (by simp [String.isEmpty_iff])]

/-- Witness for C4: trigger `None` with a non-empty text. -/
theorem update_category_dropdown_short_circuit_witness :
    update_category_dropdown defaultRepo none "Food" ["A"] =
      .ok ((Upd.noUpdate, "", none), ["A"]) :=
  update_category_dropdown_short_circuit defaultRepo none "Food" ["A"] (Or.inl rfl)

/-- Counterexample to claim C2 as stated: no uniqueness is enforced, so
adding a category that is already stored makes it appear twice — not
exactly once — in the rebuilt options.  Here `Food` is alphanumeric, the
click count is `1`, and `Food` is already in the list. -/
theorem update_category_dropdown_duplicate_counterexample :
    pyIsAlnum "Food" = true ∧
    update_category_dropdown defaultRepo (some 1) "Food" ["Food"] =
      .ok ((Upd.update [⟨"Food", "Food"⟩, ⟨"Food", "Food"⟩, ⟨"Add new", "ADD_NEW"⟩], "",
            some ⟨"Category \"Food\" added successfully!", "success", none⟩),
           ["Food", "Food"]) ∧
    ([⟨"Food", "Food"⟩, ⟨"Food", "Food"⟩,
      (⟨"Add new", "ADD_NEW"⟩ : DropdownOption)].map DropdownOption.value).count "Food" = 2 :=
  ⟨by decide, rfl, by decide⟩

/-- Claim C2 (amended): for every alphanumeric string `S` *not already
stored* and a positive click count, `update_category_dropdown` appends
`S`, re-fetches the list, returns the rebuilt options (with the
`ADD_NEW` sentinel appended) in which `S` appears exactly once, clears
the text field, and returns a success alert naming `S`. -/
theorem update_category_dropdown_add_new_category (k : Int) (S : String)
    (cats : List String) (_hk : 0 < k) (halnum : pyIsAlnum S = true)
    (hfresh : S ∉ cats) :
    update_category_dropdown defaultRepo (some k) S cats =
      .ok ((Upd.update (mkOptions (cats ++ [S])), "",
            some ⟨"Category \"" ++ S ++ "\" added successfully!", "success", none⟩),
           cats ++ [S]) ∧
    ((mkOptions (cats ++ [S])).map DropdownOption.value).count S = 1 := by
  constructor
  · unfold update_category_dropdown
    rw [if_neg (by simp [pyIsAlnum_ne_empty halnum]), if_neg (by simp [halnum])]
    rfl
  · have hS : S ≠ "ADD_NEW" := by
      intro h
      rw [h] at halnum
      exact absurd halnum (by decide)
    have hcomp : (DropdownOption.value ∘ fun c : String => (⟨c, c⟩ : DropdownOption)) =
        fun c => c := rfl
    have hmapval : (mkOptions (cats ++ [S])).map DropdownOption.value =
        (cats ++ [S]) ++ ["ADD_NEW"] := by
      rw [mkOptions, List.map_append, List.map_map, hcomp, List.map_id']
      rfl
    rw [hmapval, List.count_append, List.count_append]
    rw [List.count_eq_zero.mpr hfresh]
    simp [List.count_singleton, List.count_cons, hS]

/-- Witness for C2: adding `Food` to an empty category list with click
count `1`. -/
theorem update_category_dropdown_add_new_category_witness :
    ((0 : Int) < 1 ∧ pyIsAlnum "Food" = true ∧ "Food" ∉ ([] : List String)) ∧
    (update_category_dropdown defaultRepo (some 1) "Food" [] =
      .ok ((Upd.update (mkOptions ([] ++ ["Food"])), "",
            some ⟨"Category \"" ++ "Food" ++ "\" added successfully!", "success", none⟩),
           [] ++ ["Food"]) ∧
    ((mkOptions ([] ++ ["Food"])).map DropdownOption.value).count "Food" = 1) :=
  ⟨⟨by decide, by decide, by decide⟩,
   update_category_dropdown_add_new_category 1 "Food" [] (by decide) (by decide) (by decide)⟩

/-- Claim C9: once the handler reaches the storage layer (trigger
present and positive, non-empty alphanumeric text), it has no
try/except: it raises exactly when the category insert raises, or the
insert succeeds and the category list fetch raises. -/
theorem update_category_dropdown_error_propagation (repo : CatRepo) (k : Int)
    (t : String) (cats : List String) (_hk : 0 < k) (halnum : pyIsAlnum t = true)
    (e : String) :
    update_category_dropdown repo (some k) t cats = .error e ↔
      (repo.addCategory t cats = .error e ∨
       ∃ cats', repo.addCategory t cats = .ok cats' ∧
         repo.listCategories cats' = .error e) := by
  unfold update_category_dropdown
  rw [if_neg (by simp [pyIsAlnum_ne_empty halnum]), if_neg (by simp [halnum])]
  cases hadd : repo.addCategory t cats with
  | error f => simp
  | ok cats' =>
    cases hget : repo.listCategories cats' with
    | error f => simp [hget]
    | ok l => simp [hget]

/-- Witness for C9: a repository whose insert fails with
`database is locked` makes the handler raise that very error. -/
theorem update_category_dropdown_error_propagation_witness :
    update_category_dropdown
        ⟨fun _ _ => Except.error "database is locked", fun cats => Except.ok cats⟩
        (some 1) "Food" [] = Except.error "database is locked" :=
  (update_category_dropdown_error_propagation
    ⟨fun _ _ => Except.error "database is locked", fun cats => Except.ok cats⟩
    1 "Food" [] (by decide) (by decide) "database is locked").mpr (Or.inl rfl)

/-- Claim C10: on every branch on which `update_category_dropdown`
returns (short-circuit, validation failure, success), the value returned
for the new-category text field is the empty string. -/
theorem update_category_dropdown_clears_text (repo : CatRepo) (n_clicks : Option Int)
    (t : String) (cats : List String) :
    ∀ out cats', update_category_dropdown repo n_clicks t cats = .ok (out, cats') →
      out.2.1 = "" := by
  intro out cats' h
  unfold update_category_dropdown at h
  split at h
  · simp only [Except.ok.injEq, Prod.mk.injEq] at h
    obtain ⟨h1, -⟩ := h
    rw [← h1]
  · split at h
    · simp only [Except.ok.injEq, Prod.mk.injEq] at h
      obtain ⟨h1, -⟩ := h
      rw [← h1]
    · split at h
      · exact absurd h (by simp)
      · split at h
        · exact absurd h (by simp)
        · simp only [Except.ok.injEq, Prod.mk.injEq] at h
          obtain ⟨h1, -⟩ := h
          rw [← h1]

/-- Witness for C10: the validation-failure branch at input `"a b"`
(invalid text preserved nowhere — the field comes back empty). -/
theorem update_category_dropdown_clears_text_witness :
    ((Upd.noUpdate, "", some (⟨"Invalid category name.", "warning", none⟩ : Alert)) :
        Upd (List DropdownOption) × String × Option Alert).2.1 = "" :=
  update_category_dropdown_clears_text defaultRepo (some 1) "a b" []
    (Upd.noUpdate, "", some ⟨"Invalid category name.", "warning", none⟩) [] rfl

/-- Counterexample to claim C5 as stated: the source tests
`'ADD_NEW' in selected_value` (substring), not equality, so a selected
value different from `ADD_NEW` that merely contains it also forces the
modal open instead of leaving the state unchanged. -/
theorem toggle_modal_substring_counterexample :
    "AADD_NEWZ" ≠ "ADD_NEW" ∧ toggle_modal (some "AADD_NEWZ") false = true :=
  ⟨by decide, by decide⟩

/-- Claim C5 (amended): `toggle_modal` returns `true` whenever the
selected value is a non-empty string containing `ADD_NEW` as a substring
(in particular for `ADD_NEW` itself), and returns the current state
unchanged when the selection is `None` or does not contain `ADD_NEW`;
the handler is a pure function of its two inputs. -/
theorem toggle_modal_contract (v : String) (is_open : Bool) :
    toggle_modal none is_open = is_open ∧
    toggle_modal (some "ADD_NEW") is_open = true ∧
    (v ≠ "" → strContainsSub v "ADD_NEW" = true → toggle_modal (some v) is_open = true) ∧
    (strContainsSub v "ADD_NEW" = false → toggle_modal (some v) is_open = is_open) := by
  refine ⟨rfl, ?_, ?_, ?_⟩
  · simp only [toggle_modal]
    rw [if_pos (by decide)]
  · intro hne hsub
    simp only [toggle_modal]
    rw [if_pos (by simp [isEmpty_false_of_ne hne, hsub])]
  · intro hsub
    simp only [toggle_modal]
    rw [if_neg (by simp [hsub])]

/-- Witness for C5: a plain category name leaves the state unchanged,
and a string containing the sentinel forces the modal open. -/
theorem toggle_modal_contract_witness :
    (strContainsSub "Food" "ADD_NEW" = false ∧ toggle_modal (some "Food") true = true) ∧
    ("XADD_NEW" ≠ "" ∧ strContainsSub "XADD_NEW" "ADD_NEW" = true ∧
      toggle_modal (some "XADD_NEW") false = true) :=
  ⟨⟨by decide, (toggle_modal_contract "Food" true).2.2.2 (by decide)⟩,
   ⟨by decide, by decide,
    (toggle_modal_contract "XADD_NEW" false).2.2.1 (by decide) (by decide)⟩⟩

/-- Claim C8 (code bug): when `sqlite3.connect` itself raises a storage
error, the local `conn` is never bound, so the `finally: conn.close()`
clause raises `UnboundLocalError`, which discards the danger alert the
`except` clause had computed.  The handler raises instead of returning
the alert, and no connection is closed — contrary to the claim. -/
theorem update_output_connect_error_raises :
    update_output ⟨some "unable to open database file", none, none⟩
        ([] : List (String × String)) (some 1) (some "42.5") (some "Food") =
      ⟨.error "UnboundLocalError", [], false⟩ := rfl

end SpendingTracker
